import Mathlib

/-!
# Connectivity check of a dialer (component/outbound/dialer/connectivity_check.go)

A shallow embedding of the health-check engine: the four per-class collections
with their reference-counted subscriber maps, the memoised check-target options,
the HTTP and DNS probes, `Check`, `NotifyCheck` and the launch decisions of the
scheduler loop `aliveBackground`.

Conventions of the embedding.
* Go pointers to the four collections are indices `Fin 4` into `Dialer.collections`.
* A Go runtime panic is the result `none` of an `Option`-valued definition.
* Calls that leave the package (URL parsing, name resolution, the HTTP client,
  the clock) are fields of `Env`, the state of the outside world at the call.
* Go `int` counters and `time.Duration` are unbounded `Int`: the count of a handle wraps
  only after as many registrations of that handle as the width of `int` allows, and no
  arithmetic is done on durations.
-/

namespace Dae

/-! ## Basic types -/

/-- Identity of an `*AliveDialerSet`: the subscriber handle, compared by address. -/
abbrev AliveDialerSetPtr := Nat

/-- Go `time.Duration`, in nanoseconds. -/
abbrev Duration := Int

/-- Modelled from the spec: `consts.L4ProtoStr` is a string type declared in package
`consts`, which is not among the sources. The two constants the code switches on are
constructors; every other string value is `other`. -/
inductive L4ProtoStr where
  | TCP
  | UDP
  | other (raw : String)
  deriving DecidableEq, Repr

/-- Modelled from the spec: `consts.IpVersionStr`, declared in package `consts`; the two
constants the code switches on are constructors, every other value is `other`. -/
inductive IpVersionStr where
  | v4
  | v6
  | other (raw : String)
  deriving DecidableEq, Repr

/-- A Go `error` value as far as this file observes it: the text of `Error()` and the
outcome of `errors.As(err, &netErr)` for `netErr` of interface type `net.Error`
(`none`: no error in the chain satisfies `net.Error`; `some t`: one does and its
`Timeout()` is `t`). -/
structure GoError where
  msg : String
  netErr : Option Bool
  deriving DecidableEq, Repr

/-- The error built by `fmt.Errorf(text)` without a wrapping verb. -/
def Errorf (text : String) : GoError := { msg := text, netErr := none }

/-- The error built by `fmt.Errorf(text + ": %w", err)`: the text is prefixed and the
chain of `err` stays reachable by `errors.As`. -/
def ErrorfWrap (text : String) (err : GoError) : GoError :=
  { msg := text ++ ": " ++ err.msg, netErr := err.netErr }

/-- A `context.Context` obtained from `context.WithTimeout(context.TODO(), timeout)`. -/
structure Context where
  timeout : Duration
  deriving DecidableEq, Repr

/-! ## Subscriber maps and latency windows -/

/-- Modelled from the spec: `AliveDialerSetSet` is declared outside the given sources;
the spec describes it as a mapping from subscriber handle to an integer count. A Go map
holds each key once, which `AList` enforces. -/
abbrev AliveDialerSetSet := AList (fun _ : AliveDialerSetPtr => Int)

/-- Reading `m[a]` on a Go map: the stored count, or the zero value when `a` is absent. -/
def AliveDialerSetSet.get (m : AliveDialerSetSet) (a : AliveDialerSetPtr) : Int :=
  (m.lookup a).getD 0

/-- Go `len(m)`. -/
def AliveDialerSetSet.len (m : AliveDialerSetSet) : Nat := m.keys.length

/-- Modelled from the spec: `LatenciesN` is declared outside the given sources. The spec:
an ordered buffer of at most N duration samples; insertion evicts the oldest when full. -/
structure LatenciesN where
  N : Nat
  samples : List Duration
  deriving DecidableEq, Repr

/-- Modelled from the spec: `NewLatenciesN(n)`, an empty window of capacity `n`. -/
def NewLatenciesN (n : Nat) : LatenciesN := { N := n, samples := [] }

/-- Modelled from the spec: `AppendLatency(l)` stores the sample, evicting the oldest if
the window is at capacity. -/
def LatenciesN.AppendLatency (ln : LatenciesN) (l : Duration) : LatenciesN :=
  { ln with
    samples := (if ln.N ≤ ln.samples.length then ln.samples.drop 1 else ln.samples) ++ [l] }

/-- Modelled from the spec: `AvgLatency()` returns the mean of the held samples and how
many are held; with no sample the average is zero. -/
def LatenciesN.AvgLatency (ln : LatenciesN) : Duration × Nat :=
  if ln.samples.length = 0 then (0, 0)
  else (Int.tdiv ln.samples.sum ln.samples.length, ln.samples.length)

/-! ## Collections -/

/-- The Go struct `collection`. -/
structure collection where
  AliveDialerSetSet : AliveDialerSetSet
  Latencies10 : LatenciesN
  Alive : Bool

/-- Go `newCollection`. -/
def newCollection : collection :=
  { AliveDialerSetSet := ∅
    Latencies10 := NewLatenciesN 10
    Alive := true }

/-- Go `mustGetCollection`: the index of the collection of a class, `none` for the
`panic("invalid param")` that any other combination reaches. -/
def mustGetCollection (l4proto : L4ProtoStr) (ipversion : IpVersionStr) : Option (Fin 4) :=
  match l4proto with
  | L4ProtoStr.TCP =>
    match ipversion with
    | IpVersionStr.v4 => some 0
    | IpVersionStr.v6 => some 1
    | IpVersionStr.other _ => none
  | L4ProtoStr.UDP =>
    match ipversion with
    | IpVersionStr.v4 => some 2
    | IpVersionStr.v6 => some 3
    | IpVersionStr.other _ => none
  | L4ProtoStr.other _ => none

/-! ## Check-target options -/

/-- An IP address (`netip.Addr`), kept as its text. -/
abbrev Addr := String

/-- The type `netutils.Ip46`, declared outside the given sources: one IPv4 and one IPv6
address. -/
structure Ip46 where
  Ip4 : Addr
  Ip6 : Addr
  deriving DecidableEq, Repr

/-- A parsed URL as far as the probe reads it: its text (`String()`), its port (`Port()`)
and its path (`Path`). -/
structure URL where
  text : String
  hostname : String
  port : String
  Path : String
  deriving DecidableEq, Repr

/-- Go `TcpCheckOption`. -/
structure TcpCheckOption where
  Url : URL
  ip46 : Ip46
  deriving DecidableEq, Repr

/-- Go `UdpCheckOption`. -/
structure UdpCheckOption where
  DnsHost : String
  DnsPort : Nat
  ip46 : Ip46
  deriving DecidableEq, Repr

/-- An `*http.Request` as far as the probe reads it. -/
structure Request where
  url : URL
  deriving DecidableEq, Repr

/-- An `*http.Response` as far as the probe reads it. -/
structure Response where
  StatusCode : Int
  deriving DecidableEq, Repr

/-- The outside world at one call: the results of every call that leaves the package. -/
structure Env where
  /-- Go `netutils.SystemDns()` -/
  SystemDns : Except GoError String
  /-- Go `url.Parse(rawURL)` -/
  urlParse : String → Except GoError URL
  /-- Go `net.SplitHostPort(hostport)` -/
  SplitHostPort : String → Except GoError (String × String)
  /-- Go `strconv.ParseUint(s, 10, 16)` -/
  ParseUint16 : String → Except GoError Nat
  /-- Go `netutils.ParseIp46(ctx, SymmetricDirect, systemDns, host, true)` -/
  ParseIp46 : Context → String → String → Except GoError Ip46
  /-- Go `http.NewRequestWithContext(ctx, "GET", url, nil)` -/
  NewRequestWithContext : Context → String → Except GoError Request
  /-- Go `cli.Do(req)` for a client whose transport dials the given `host:port` text -/
  Do : Addr → String → Request → Except GoError Response
  /-- Go `netutils.ResolveNetip(ctx, d, dns, consts.UdpCheckLookupHost, dnsmessage.TypeA)` -/
  ResolveNetip : Context → Addr → Nat → Except GoError (List Addr)
  /-- Go `time.Since(start)` read when the probe has returned -/
  elapsed : Duration

/-- The contract of `http.Client.Do` in package `net/http`: any error it returns is of
type `*url.Error`. That type has the methods `Timeout()` and `Temporary()`, so it
satisfies `net.Error` and `errors.As(err, &netErr)` succeeds on it. -/
def Env.DoReturnsUrlError (env : Env) : Prop :=
  ∀ ip port req err, env.Do ip port req = .error err → ∃ isTimeout, err.netErr = some isTimeout

/-- Go `ParseTcpCheckOption`. The deferred `TryUpdateSystemDns1s` acts on the system
resolver only and returns nothing this function uses. -/
def ParseTcpCheckOption (env : Env) (ctx : Context) (rawURL : String) :
    Except GoError TcpCheckOption :=
  match env.SystemDns with
  | .error err => .error err
  | .ok systemDns =>
    match env.urlParse rawURL with
    | .error err => .error err
    | .ok u =>
      match env.ParseIp46 ctx systemDns u.hostname with
      | .error err => .error err
      | .ok ip46 => .ok { Url := u, ip46 := ip46 }

/-- Go `ParseUdpCheckOption`. -/
def ParseUdpCheckOption (env : Env) (ctx : Context) (dnsHostPort : String) :
    Except GoError UdpCheckOption :=
  match env.SystemDns with
  | .error err => .error err
  | .ok systemDns =>
    match env.SplitHostPort dnsHostPort with
    | .error err => .error err
    | .ok (host, _port) =>
      match env.ParseUint16 _port with
      | .error err => .error (Errorf ("bad port: " ++ err.msg))
      | .ok port =>
        match env.ParseIp46 ctx systemDns host with
        | .error err => .error err
        | .ok ip46 => .ok { DnsHost := host, DnsPort := port, ip46 := ip46 }

/-- Go `TcpCheckOptionRaw` without its mutex: the cached option (`none` is the nil
pointer) and the raw text. -/
structure TcpCheckOptionRaw where
  opt : Option TcpCheckOption
  Raw : String
  deriving DecidableEq, Repr

/-- Go `UdpCheckOptionRaw` without its mutex. -/
structure UdpCheckOptionRaw where
  opt : Option UdpCheckOption
  Raw : String
  deriving DecidableEq, Repr

/-- What one call of `Option()` does: the returned pair, the cache afterwards, and
whether the call reached the parser (a record of the call, not a Go value). -/
structure OptionCall (α ρ : Type) where
  result : Except GoError α
  cache : ρ
  parsed : Bool

/-- The ten seconds of `context.WithTimeout(context.TODO(), 10*time.Second)`. -/
def tenSeconds : Duration := 10 * 1000000000

/-- Go `(*TcpCheckOptionRaw).Option`. -/
def TcpCheckOptionRaw.Option (c : TcpCheckOptionRaw) (env : Env) :
    OptionCall TcpCheckOption TcpCheckOptionRaw :=
  match c.opt with
  | none =>
    match ParseTcpCheckOption env { timeout := tenSeconds } c.Raw with
    | .error err =>
      { result := .error (ErrorfWrap "failed to parse tcp_check_url" err)
        cache := c, parsed := true }
    | .ok tcpCheckOption =>
      { result := .ok tcpCheckOption
        cache := { c with opt := some tcpCheckOption }, parsed := true }
  | some opt => { result := .ok opt, cache := c, parsed := false }

/-- Go `(*UdpCheckOptionRaw).Option`. -/
def UdpCheckOptionRaw.Option (c : UdpCheckOptionRaw) (env : Env) :
    OptionCall UdpCheckOption UdpCheckOptionRaw :=
  match c.opt with
  | none =>
    match ParseUdpCheckOption env { timeout := tenSeconds } c.Raw with
    | .error err =>
      { result := .error (ErrorfWrap "failed to parse tcp_check_url" err)
        cache := c, parsed := true }
    | .ok udpCheckOption =>
      { result := .ok udpCheckOption
        cache := { c with opt := some udpCheckOption }, parsed := true }
  | some opt => { result := .ok opt, cache := c, parsed := false }

/-! ## Go string functions used by the probes -/

/-- Go `path.Base`: the last element of a slash-separated path, after trailing slashes
are removed; `.` for the empty path and `/` for a path of slashes only. The slash is one
byte in UTF-8, so working on characters gives the bytes Go computes. -/
def Base (path : String) : String :=
  if path = "" then "."
  else
    -- Strip trailing slashes.
    let stripped := (path.data.reverse.dropWhile (fun c => c = '/')).reverse
    -- Find the last element.
    let last := (stripped.reverse.takeWhile (fun c => c ≠ '/')).reverse
    -- If empty now, it had only slashes.
    if last = [] then "/" else String.mk last

/-- Go `strings.HasPrefix`. -/
def HasPrefix (s pre : String) : Bool := pre.data.isPrefixOf s.data

/-- Go `strings.TrimPrefix`. -/
def TrimPrefix (s pre : String) : String :=
  if HasPrefix s pre then String.mk (s.data.drop pre.data.length) else s

/-- Go `strings.Contains`. -/
def Contains (s substr : String) : Bool := decide (substr.data <:+: s.data)

/-- Go `strconv.Itoa`: the decimal text of an integer, with a minus sign when negative. -/
def Itoa (i : Int) : String :=
  if i < 0 then "-" ++ Nat.repr (-i).toNat else Nat.repr i.toNat

/-! ## Probes -/

/-- Go `(*Dialer).HttpCheck`. The result `none` is a runtime panic: in the error branch
`errors.As` is the init statement of the `if` and its boolean is dropped, so `netErr`
would still be the nil interface, and `netErr.Timeout()` a call on nil, for an error in
whose chain nothing satisfies `net.Error`. The errors of `http.Client.Do` all satisfy it
(`Env.DoReturnsUrlError`), so that branch is not reached by an error the client returns. -/
def HttpCheck (env : Env) (ctx : Context) (u : URL) (ip : Addr) :
    Option (Bool × Option GoError) :=
  match env.NewRequestWithContext ctx u.text with
  | .error err => some (false, some err)
  | .ok req =>
    match env.Do ip u.port req with
    | .error err =>
      match err.netErr with
      | none => none
      | some isTimeout =>
        if isTimeout then some (false, some (Errorf "timeout"))
        else some (false, some err)
    | .ok resp =>
      -- Judge the status code.
      let page := Base req.url.Path
      if HasPrefix page "generate_" then
        some (decide (Itoa resp.StatusCode = TrimPrefix page "generate_"), none)
      else
        some (decide (200 ≤ resp.StatusCode ∧ resp.StatusCode < 400), none)

/-- Go `(*Dialer).DnsCheck`, for the endpoint `netip.AddrPortFrom(ip, port)`. -/
def DnsCheck (env : Env) (ctx : Context) (ip : Addr) (port : Nat) :
    Bool × Option GoError :=
  match env.ResolveNetip ctx ip port with
  | .error err => (false, some err)
  | .ok addrs =>
    if addrs.length = 0 then (false, some (Errorf "bad DNS response: no record"))
    else (true, none)

/-! ## The dialer -/

/-- The two memoised check targets a dialer reaches as `d.TcpCheckOptionRaw` and
`d.UdpCheckOptionRaw`. -/
structure CheckOptionRaws where
  Tcp : TcpCheckOptionRaw
  Udp : UdpCheckOptionRaw
  deriving DecidableEq, Repr

/-- Go `CheckOption`. A probe closure is given the outside world and the context, reads
and writes the memoised check targets, and returns `(ok, err)`; `none` is a panic inside
the probe. The collections are not reachable from a probe: they are written by `Check`,
`RegisterAliveDialerSet` and `UnregisterAliveDialerSet` only. -/
structure CheckOption where
  L4proto : L4ProtoStr
  IpVersion : IpVersionStr
  CheckFunc : Env → Context → CheckOptionRaws →
    Option ((Bool × Option GoError) × CheckOptionRaws)

/-- A value of `time.Time`. -/
abbrev Time := Nat

/-- A buffered Go channel of `time.Time`: its capacity and the values it holds, oldest
first. -/
structure Chan where
  cap : Nat
  buf : List Time
  deriving DecidableEq, Repr

/-- Modelled from the spec: the struct `Dialer` is declared outside the given sources;
these are the fields this file reads and writes. `ctxDone` is whether `d.ctx` is
cancelled, `CheckEnabled` is `d.instanceOption.CheckEnabled`. -/
structure Dialer where
  name : String
  collections : Fin 4 → collection
  raws : CheckOptionRaws
  CheckInterval : Duration
  CheckEnabled : Bool
  checkCh : Chan
  ctxDone : Bool

/-- Modelled from the spec: the constructor of `Dialer` is outside the given sources. A
fresh dialer has four collections from `newCollection`, unresolved check targets, a
trigger queue of capacity 1 holding nothing, a live context and checking not yet
activated. -/
def NewDialer (name tcpRaw udpRaw : String) (interval : Duration) : Dialer :=
  { name := name
    collections := fun _ => newCollection
    raws := { Tcp := { opt := none, Raw := tcpRaw }, Udp := { opt := none, Raw := udpRaw } }
    CheckInterval := interval
    CheckEnabled := false
    checkCh := { cap := 1, buf := [] }
    ctxDone := false }

/-- Writing through the pointer to collection `i`. -/
def Dialer.setCollection (d : Dialer) (i : Fin 4) (c : collection) : Dialer :=
  { d with collections := Function.update d.collections i c }

/-- Go `(*Dialer).MustGetAlive`. -/
def Dialer.MustGetAlive (d : Dialer) (l4proto : L4ProtoStr) (ipversion : IpVersionStr) :
    Option Bool :=
  (mustGetCollection l4proto ipversion).map (fun i => (d.collections i).Alive)

/-- Go `(*Dialer).MustGetLatencies10`. -/
def Dialer.MustGetLatencies10 (d : Dialer) (l4proto : L4ProtoStr)
    (ipversion : IpVersionStr) : Option LatenciesN :=
  (mustGetCollection l4proto ipversion).map (fun i => (d.collections i).Latencies10)

/-! ## Subscriber registration -/

/-- Go `(*Dialer).RegisterAliveDialerSet`: `AliveDialerSetSet[a]++` on the collection of
the class. -/
def Dialer.RegisterAliveDialerSet (d : Dialer) (a : AliveDialerSetPtr)
    (l4proto : L4ProtoStr) (ipversion : IpVersionStr) : Option Dialer :=
  match mustGetCollection l4proto ipversion with
  | none => none
  | some i =>
    let c := d.collections i
    some (d.setCollection i
      { c with AliveDialerSetSet := c.AliveDialerSetSet.insert a (c.AliveDialerSetSet.get a + 1) })

/-- The statement `setSet[a]--` of `UnregisterAliveDialerSet`. -/
def decrement (setSet : AliveDialerSetSet) (a : AliveDialerSetPtr) : AliveDialerSetSet :=
  setSet.insert a (setSet.get a - 1)

/-- The statement `if setSet[a] <= 0 { delete(setSet, a) }` of `UnregisterAliveDialerSet`. -/
def deleteIfDone (setSet : AliveDialerSetSet) (a : AliveDialerSetPtr) : AliveDialerSetSet :=
  if setSet.get a ≤ 0 then setSet.erase a else setSet

/-- Go `(*Dialer).UnregisterAliveDialerSet`. As in the source, the collection is looked
up with the constants `consts.L4ProtoStr_TCP` and `consts.IpVersionStr_4`; the
parameters `l4proto` and `ipversion` are not read. -/
def Dialer.UnregisterAliveDialerSet (d : Dialer) (a : AliveDialerSetPtr)
    (_l4proto : L4ProtoStr) (_ipversion : IpVersionStr) : Option Dialer :=
  match mustGetCollection L4ProtoStr.TCP IpVersionStr.v4 with
  | none => none
  | some i =>
    let c := d.collections i
    some (d.setCollection i
      { c with AliveDialerSetSet := deleteIfDone (decrement c.AliveDialerSetSet a) a })

/-! ## Check -/

/-- One call `a.NotifyLatencyChange(d, alive)`: the subscriber called, the name of the
dialer passed and the liveness passed. -/
structure Notification where
  set : AliveDialerSetPtr
  dialer : String
  alive : Bool
  deriving DecidableEq, Repr

/-- What `Check` returns and leaves behind: the pair `(ok, err)`, the dialer afterwards
and the calls of `NotifyLatencyChange` it made, in the order made. -/
structure CheckReturn where
  ok : Bool
  err : Option GoError
  dialer : Dialer
  notified : List Notification

/-- The rewrite of the error in the failure branch of `Check`: an error whose text
contains `network is unreachable` is replaced by one with exactly that text. -/
def normalizeErr (err : GoError) : GoError :=
  if Contains err.msg "network is unreachable" then Errorf "network is unreachable" else err

/-- Go `(*Dialer).Check`. The collection pointer is taken before the probe runs, so an
invalid class panics first; the second `mustGetCollection` of the success branch has the
same arguments and yields the same pointer. The debug log lines write nothing this file
reads. The loop over the subscriber map visits the keys in an order Go leaves open; here
it is the order of `keys`. -/
def Dialer.Check (d : Dialer) (env : Env) (timeout : Duration) (opts : CheckOption) :
    Option CheckReturn :=
  match mustGetCollection opts.L4proto opts.IpVersion with
  | none => none
  | some i =>
    match opts.CheckFunc env { timeout := timeout } d.raws with
    | none => none
    | some ((ok, err), raws) =>
      let d1 : Dialer := { d with raws := raws }
      let c := d1.collections i
      let c2 : collection :=
        if ok && err.isNone then
          -- No error.
          { c with Latencies10 := c.Latencies10.AppendLatency env.elapsed, Alive := true }
        else
          -- Append timeout if there is any error or unexpected status code.
          { c with Latencies10 := c.Latencies10.AppendLatency timeout, Alive := false }
      let err2 : Option GoError := if ok && err.isNone then err else err.map normalizeErr
      -- Inform DialerGroups to update state.
      some
        { ok := ok
          err := err2
          dialer := d1.setCollection i c2
          notified := c2.AliveDialerSetSet.keys.map
            (fun a => { set := a, dialer := d.name, alive := c2.Alive }) }

/-! ## The scheduler -/

/-- The probe closure of `tcp4CheckOpt` in `aliveBackground`. -/
def tcp4CheckFunc (env : Env) (ctx : Context) (raws : CheckOptionRaws) :
    Option ((Bool × Option GoError) × CheckOptionRaws) :=
  let call := raws.Tcp.Option env
  let raws2 : CheckOptionRaws := { raws with Tcp := call.cache }
  match call.result with
  | .error err => some ((false, some err), raws2)
  | .ok opt => (HttpCheck env ctx opt.Url opt.ip46.Ip4).map (fun r => (r, raws2))

/-- The probe closure of `tcp6CheckOpt` in `aliveBackground`. -/
def tcp6CheckFunc (env : Env) (ctx : Context) (raws : CheckOptionRaws) :
    Option ((Bool × Option GoError) × CheckOptionRaws) :=
  let call := raws.Tcp.Option env
  let raws2 : CheckOptionRaws := { raws with Tcp := call.cache }
  match call.result with
  | .error err => some ((false, some err), raws2)
  | .ok opt => (HttpCheck env ctx opt.Url opt.ip46.Ip6).map (fun r => (r, raws2))

/-- The probe closure of `udp4CheckOpt` in `aliveBackground`. -/
def udp4CheckFunc (env : Env) (ctx : Context) (raws : CheckOptionRaws) :
    Option ((Bool × Option GoError) × CheckOptionRaws) :=
  let call := raws.Udp.Option env
  let raws2 : CheckOptionRaws := { raws with Udp := call.cache }
  match call.result with
  | .error err => some ((false, some err), raws2)
  | .ok opt => some (DnsCheck env ctx opt.ip46.Ip4 opt.DnsPort, raws2)

/-- The probe closure of `udp6CheckOpt` in `aliveBackground`. -/
def udp6CheckFunc (env : Env) (ctx : Context) (raws : CheckOptionRaws) :
    Option ((Bool × Option GoError) × CheckOptionRaws) :=
  let call := raws.Udp.Option env
  let raws2 : CheckOptionRaws := { raws with Udp := call.cache }
  match call.result with
  | .error err => some ((false, some err), raws2)
  | .ok opt => some (DnsCheck env ctx opt.ip46.Ip6 opt.DnsPort, raws2)

/-- The value `tcp4CheckOpt` of `aliveBackground`. -/
def tcp4CheckOpt : CheckOption :=
  { L4proto := L4ProtoStr.TCP, IpVersion := IpVersionStr.v4, CheckFunc := tcp4CheckFunc }

/-- The value `tcp6CheckOpt` of `aliveBackground`. -/
def tcp6CheckOpt : CheckOption :=
  { L4proto := L4ProtoStr.TCP, IpVersion := IpVersionStr.v6, CheckFunc := tcp6CheckFunc }

/-- The value `udp4CheckOpt` of `aliveBackground`. -/
def udp4CheckOpt : CheckOption :=
  { L4proto := L4ProtoStr.UDP, IpVersion := IpVersionStr.v4, CheckFunc := udp4CheckFunc }

/-- The value `udp6CheckOpt` of `aliveBackground`. -/
def udp6CheckOpt : CheckOption :=
  { L4proto := L4ProtoStr.UDP, IpVersion := IpVersionStr.v6, CheckFunc := udp6CheckFunc }

/-- One `go d.Check(timeout, opts)` started by the scheduler. -/
structure Launch where
  timeout : Duration
  opts : CheckOption

/-- The four statements under `// Check once immediately.` of `aliveBackground`, in
source order. -/
def aliveBackgroundInitial : List Launch :=
  [ { timeout := tenSeconds, opts := tcp4CheckOpt },
    { timeout := tenSeconds, opts := udp4CheckOpt },
    { timeout := tenSeconds, opts := tcp6CheckOpt },
    { timeout := tenSeconds, opts := udp6CheckOpt } ]

/-- One `if len(d.mustGetCollection(..).AliveDialerSetSet) > 0 { go d.Check(..) }` of the
consumer loop. -/
def launchIfSubscribed (d : Dialer) (opts : CheckOption) : Option (List Launch) :=
  match mustGetCollection opts.L4proto opts.IpVersion with
  | none => none
  | some i =>
    if 0 < (d.collections i).AliveDialerSetSet.len then
      some [{ timeout := tenSeconds, opts := opts }]
    else some []

/-- The body of `for range d.checkCh` in `aliveBackground`: the checks started for one
consumed trigger, in source order. The subscriber maps are read as they are when the
trigger is consumed; the started checks run concurrently and the loop waits for all of
them before it receives again. -/
def aliveBackgroundCycle (d : Dialer) : Option (List Launch) :=
  match launchIfSubscribed d tcp4CheckOpt, launchIfSubscribed d tcp6CheckOpt,
    launchIfSubscribed d udp4CheckOpt, launchIfSubscribed d udp6CheckOpt with
  | some l0, some l1, some l2, some l3 => some (l0 ++ l1 ++ l2 ++ l3)
  | _, _, _, _ => none

/-- Go `(*Dialer).ActivateCheck`: the dialer afterwards and the checks `aliveBackground`
starts at once when this call activates it. -/
def Dialer.ActivateCheck (d : Dialer) : Dialer × List Launch :=
  if d.CheckEnabled then (d, [])
  else ({ d with CheckEnabled := true }, aliveBackgroundInitial)

/-- A send `ch <- t` inside `select` with a `default` branch: the value is buffered when
there is room and the send is given up otherwise. -/
def Chan.trySend (ch : Chan) (t : Time) : Chan :=
  if ch.buf.length < ch.cap then { ch with buf := ch.buf ++ [t] } else ch

/-- A receive from the channel: the oldest value and the channel without it; `none`
when the buffer is empty and the receiver has to wait. -/
def Chan.recv (ch : Chan) : Option (Time × Chan) :=
  match ch.buf with
  | [] => none
  | t :: rest => some (t, { ch with buf := rest })

/-- One turn of `for range d.checkCh` in `aliveBackground`: `none` while no trigger is
queued and the loop waits; otherwise the dialer with the oldest trigger taken out of the
queue, and the checks started for it (`none` there being a panic). -/
def aliveBackgroundReceive (d : Dialer) : Option (Dialer × Option (List Launch)) :=
  match d.checkCh.recv with
  | none => none
  | some (_, ch) =>
    let d2 : Dialer := { d with checkCh := ch }
    some (d2, aliveBackgroundCycle d2)

/-- Go `(*Dialer).NotifyCheck`, called at time `now`. -/
def Dialer.NotifyCheck (d : Dialer) (now : Time) : Dialer :=
  if d.ctxDone then d
  else { d with checkCh := d.checkCh.trySend now }

/-- The number of triggers waiting in the queue. -/
def Dialer.pending (d : Dialer) : Nat := d.checkCh.buf.length

/-! ## Sequences of calls -/

/-- The successive calls of `(*TcpCheckOptionRaw).Option`, one per state of the outside
world, each starting from the cache the previous call left. -/
def TcpCheckOptionRaw.Calls (c : TcpCheckOptionRaw) :
    List Env → List (OptionCall TcpCheckOption TcpCheckOptionRaw)
  | [] => []
  | env :: envs => c.Option env :: TcpCheckOptionRaw.Calls (c.Option env).cache envs

/-- The successive calls of `(*UdpCheckOptionRaw).Option`. -/
def UdpCheckOptionRaw.Calls (c : UdpCheckOptionRaw) :
    List Env → List (OptionCall UdpCheckOption UdpCheckOptionRaw)
  | [] => []
  | env :: envs => c.Option env :: UdpCheckOptionRaw.Calls (c.Option env).cache envs

/-- One of the four classes the collections are indexed by. -/
def ValidClass (l4proto : L4ProtoStr) (ipversion : IpVersionStr) : Prop :=
  (l4proto = L4ProtoStr.TCP ∨ l4proto = L4ProtoStr.UDP) ∧
    (ipversion = IpVersionStr.v4 ∨ ipversion = IpVersionStr.v6)

instance (l4proto : L4ProtoStr) (ipversion : IpVersionStr) :
    Decidable (ValidClass l4proto ipversion) := by
  unfold ValidClass; exact inferInstance

/-- A call of the registration interface. -/
inductive RegCall where
  | register (a : AliveDialerSetPtr) (l4proto : L4ProtoStr) (ipversion : IpVersionStr)
  | unregister (a : AliveDialerSetPtr) (l4proto : L4ProtoStr) (ipversion : IpVersionStr)
  deriving DecidableEq, Repr

/-- The class a registration call names. -/
def RegCall.Valid : RegCall → Prop
  | .register _ l4proto ipversion => ValidClass l4proto ipversion
  | .unregister _ l4proto ipversion => ValidClass l4proto ipversion

/-- Making one registration call on a dialer. -/
def Dialer.call (d : Dialer) : RegCall → Option Dialer
  | .register a l4proto ipversion => d.RegisterAliveDialerSet a l4proto ipversion
  | .unregister a l4proto ipversion => d.UnregisterAliveDialerSet a l4proto ipversion

/-- Making a sequence of registration calls, first to last; a panic ends the run. -/
def Dialer.calls (d : Dialer) : List RegCall → Option Dialer
  | [] => some d
  | c :: cs =>
    match d.call c with
    | none => none
    | some d2 => d2.calls cs

/-- The subscriber map of collection `i`. -/
def Dialer.subscribers (d : Dialer) (i : Fin 4) : AliveDialerSetSet :=
  (d.collections i).AliveDialerSetSet

/-! ## A concrete outside world -/

/-- An outside world for evaluating the definitions: the system resolver is available,
URLs parse to the host `example.test` with the given path, name resolution returns
`resolved`, the HTTP client returns `answer` and the DNS lookup returns `records`. -/
def sampleEnv (urlPath : String) (resolved : Except GoError Ip46)
    (answer : Except GoError Response) (records : Except GoError (List Addr))
    (elapsed : Duration) : Env :=
  { SystemDns := .ok "192.0.2.53:53"
    urlParse := fun raw =>
      .ok { text := raw, hostname := "example.test", port := "80", Path := urlPath }
    SplitHostPort := fun _ => .ok ("example.test", "53")
    ParseUint16 := fun _ => .ok 53
    ParseIp46 := fun _ _ _ => resolved
    NewRequestWithContext := fun _ text =>
      .ok { url := { text := text, hostname := "example.test", port := "80", Path := urlPath } }
    Do := fun _ _ _ => answer
    ResolveNetip := fun _ _ _ => records
    elapsed := elapsed }

/-- The URL `http://example.test` followed by the given path, as parsed. -/
def sampleURL (urlPath : String) : URL :=
  { text := "http://example.test" ++ urlPath, hostname := "example.test", port := "80",
    Path := urlPath }

/-- The addresses the sample resolver returns. -/
def sampleIp46 : Ip46 := { Ip4 := "192.0.2.1", Ip6 := "2001:db8::1" }

/-- A check option of the given class whose probe returns the given pair and leaves the
memoised check targets as they are. -/
def constCheckOption (l4proto : L4ProtoStr) (ipversion : IpVersionStr) (ok : Bool)
    (err : Option GoError) : CheckOption :=
  { L4proto := l4proto, IpVersion := ipversion
    CheckFunc := fun _ _ raws => some ((ok, err), raws) }

/-- A dialer whose four collections each hold the subscribers 7 (count 1) and 9
(count 2), the latency samples 3 and 4, and the flag `Alive = false`. -/
def sampleDialer : Dialer :=
  { NewDialer "node" "http://example.test/generate_204" "example.test:53" 30 with
    collections := fun _ =>
      { AliveDialerSetSet := ((∅ : AliveDialerSetSet).insert 7 1).insert 9 2
        Latencies10 := { N := 10, samples := [3, 4] }
        Alive := false } }

/-- Every count a subscriber map stores is at least 1. -/
def Positive (m : AliveDialerSetSet) : Prop :=
  ∀ a n, m.lookup a = some n → 1 ≤ n

/-- Every count stored in any of the four subscriber maps of the dialer is at least 1. -/
def Dialer.CountsPositive (d : Dialer) : Prop :=
  ∀ i, Positive (d.subscribers i)

/-! ## Lemmas on subscriber maps -/

theorem get_insert_self (m : AliveDialerSetSet) (a : AliveDialerSetPtr) (n : Int) :
    AliveDialerSetSet.get (m.insert a n) a = n := by
  simp [AliveDialerSetSet.get, AList.lookup_insert]

theorem lookup_insert_eq (m : AliveDialerSetSet) (a b : AliveDialerSetPtr) (n : Int) :
    (m.insert a n).lookup b = if b = a then some n else m.lookup b := by
  by_cases h : b = a
  · subst h; simp [AList.lookup_insert]
  · simp [h, AList.lookup_insert_ne h]

theorem lookup_erase_eq (m : AliveDialerSetSet) (a b : AliveDialerSetPtr) :
    (m.erase a).lookup b = if b = a then none else m.lookup b := by
  by_cases h : b = a
  · subst h; simp [AList.lookup_erase]
  · simp [h, AList.lookup_erase_ne h]

theorem mem_iff_lookup (m : AliveDialerSetSet) (a : AliveDialerSetPtr) :
    a ∈ m ↔ ∃ n, m.lookup a = some n := by
  rw [← AList.lookup_isSome, Option.isSome_iff_exists]

theorem lookup_deleteIfDone_decrement (m : AliveDialerSetSet) (a b : AliveDialerSetPtr) :
    (deleteIfDone (decrement m a) a).lookup b =
      if b = a then (if m.get a - 1 ≤ 0 then none else some (m.get a - 1))
      else m.lookup b := by
  unfold deleteIfDone decrement
  rw [get_insert_self]
  by_cases hle : m.get a - 1 ≤ 0
  · rw [if_pos hle, lookup_erase_eq, lookup_insert_eq]
    by_cases h : b = a <;> simp [h, hle]
  · rw [if_neg hle, lookup_insert_eq]
    by_cases h : b = a <;> simp [h, hle]

theorem Positive.get_nonneg {m : AliveDialerSetSet} (h : Positive m)
    (a : AliveDialerSetPtr) : 0 ≤ m.get a := by
  unfold AliveDialerSetSet.get
  cases hl : m.lookup a with
  | none => simp
  | some n => have := h a n hl; simp; omega

theorem Positive.increment {m : AliveDialerSetSet} (h : Positive m)
    (a : AliveDialerSetPtr) : Positive (m.insert a (m.get a + 1)) := by
  intro b n hb
  rw [lookup_insert_eq] at hb
  by_cases hba : b = a
  · rw [if_pos hba] at hb
    have h0 := h.get_nonneg a
    have : m.get a + 1 = n := by simpa using hb
    omega
  · rw [if_neg hba] at hb
    exact h b n hb

theorem Positive.unregister {m : AliveDialerSetSet} (h : Positive m)
    (a : AliveDialerSetPtr) : Positive (deleteIfDone (decrement m a) a) := by
  intro b n hb
  rw [lookup_deleteIfDone_decrement] at hb
  by_cases hba : b = a
  · rw [if_pos hba] at hb
    by_cases hle : m.get a - 1 ≤ 0
    · rw [if_pos hle] at hb; cases hb
    · rw [if_neg hle] at hb
      have : m.get a - 1 = n := by simpa using hb
      omega
  · rw [if_neg hba] at hb
    exact h b n hb

theorem positive_empty : Positive (∅ : AliveDialerSetSet) := by
  intro a n h
  simp [AList.lookup_empty] at h

theorem setCollection_collections (d : Dialer) (i j : Fin 4) (c : collection) :
    (d.setCollection i c).collections j = if j = i then c else d.collections j := by
  unfold Dialer.setCollection
  by_cases h : j = i
  · subst h; simp
  · simp [h, Function.update_noteq h]

theorem mustGetCollection_of_valid {l4proto : L4ProtoStr} {ipversion : IpVersionStr}
    (h : ValidClass l4proto ipversion) : ∃ i, mustGetCollection l4proto ipversion = some i := by
  rcases h with ⟨hp | hp, hv | hv⟩ <;> subst hp <;> subst hv <;> simp [mustGetCollection]

theorem valid_of_mustGetCollection {l4proto : L4ProtoStr} {ipversion : IpVersionStr}
    {i : Fin 4} (h : mustGetCollection l4proto ipversion = some i) :
    ValidClass l4proto ipversion := by
  cases l4proto <;> cases ipversion <;> simp [mustGetCollection, ValidClass] at h ⊢

theorem countsPositive_register {d d2 : Dialer} (h : d.CountsPositive)
    {a : AliveDialerSetPtr} {l4proto : L4ProtoStr} {ipversion : IpVersionStr}
    (hd : d.RegisterAliveDialerSet a l4proto ipversion = some d2) : d2.CountsPositive := by
  unfold Dialer.RegisterAliveDialerSet at hd
  cases hi : mustGetCollection l4proto ipversion with
  | none => rw [hi] at hd; cases hd
  | some i =>
    rw [hi] at hd
    simp only [Option.some.injEq] at hd
    subst hd
    intro j
    unfold Dialer.subscribers
    rw [setCollection_collections]
    by_cases hji : j = i
    · subst hji; simpa using (h j).increment a
    · simpa [hji] using h j

theorem countsPositive_unregister {d d2 : Dialer} (h : d.CountsPositive)
    {a : AliveDialerSetPtr} {l4proto : L4ProtoStr} {ipversion : IpVersionStr}
    (hd : d.UnregisterAliveDialerSet a l4proto ipversion = some d2) : d2.CountsPositive := by
  unfold Dialer.UnregisterAliveDialerSet at hd
  simp only [mustGetCollection, Option.some.injEq] at hd
  subst hd
  intro j
  unfold Dialer.subscribers
  rw [setCollection_collections]
  by_cases hji : j = 0
  · subst hji; simpa using (h 0).unregister a
  · simpa [hji] using h j

theorem countsPositive_calls {cs : List RegCall} :
    ∀ {d : Dialer}, d.CountsPositive → (∀ c ∈ cs, c.Valid) →
      ∃ d2, d.calls cs = some d2 ∧ d2.CountsPositive := by
  induction cs with
  | nil => intro d h _; exact ⟨d, rfl, h⟩
  | cons c cs ih =>
    intro d h hv
    have hc : c.Valid := hv c (List.mem_cons_self _ _)
    have hcs : ∀ c2 ∈ cs, c2.Valid := fun c2 hc2 => hv c2 (List.mem_cons_of_mem _ hc2)
    cases c with
    | register a l4proto ipversion =>
      obtain ⟨i, hi⟩ := mustGetCollection_of_valid hc
      have hstep : ∃ d1, d.RegisterAliveDialerSet a l4proto ipversion = some d1 := by
        simp [Dialer.RegisterAliveDialerSet, hi]
      obtain ⟨d1, hd1⟩ := hstep
      obtain ⟨d2, hd2, hpos⟩ := ih (countsPositive_register h hd1) hcs
      exact ⟨d2, by simp [Dialer.calls, Dialer.call, hd1, hd2], hpos⟩
    | unregister a l4proto ipversion =>
      have hstep : ∃ d1, d.UnregisterAliveDialerSet a l4proto ipversion = some d1 := by
        simp [Dialer.UnregisterAliveDialerSet, mustGetCollection]
      obtain ⟨d1, hd1⟩ := hstep
      obtain ⟨d2, hd2, hpos⟩ := ih (countsPositive_unregister h hd1) hcs
      exact ⟨d2, by simp [Dialer.calls, Dialer.call, hd1, hd2], hpos⟩

theorem NewDialer_countsPositive (name tcpRaw udpRaw : String) (interval : Duration) :
    (NewDialer name tcpRaw udpRaw interval).CountsPositive := by
  intro i
  exact positive_empty

theorem register_keeps_members {d d2 : Dialer} {a : AliveDialerSetPtr}
    {l4proto : L4ProtoStr} {ipversion : IpVersionStr}
    (hd : d.RegisterAliveDialerSet a l4proto ipversion = some d2) (i : Fin 4)
    (b : AliveDialerSetPtr) (hb : b ∈ d.subscribers i) : b ∈ d2.subscribers i := by
  unfold Dialer.RegisterAliveDialerSet at hd
  cases hi : mustGetCollection l4proto ipversion with
  | none => rw [hi] at hd; cases hd
  | some k =>
    rw [hi] at hd
    simp only [Option.some.injEq] at hd
    subst hd
    unfold Dialer.subscribers at hb ⊢
    rw [setCollection_collections]
    by_cases hik : i = k
    · subst hik
      simp only [if_true]
      exact (AList.mem_insert _).mpr (Or.inr hb)
    · simpa [hik] using hb

theorem unregister_subscribers (d : Dialer) (a : AliveDialerSetPtr)
    (l4proto : L4ProtoStr) (ipversion : IpVersionStr) :
    ∃ d2, d.UnregisterAliveDialerSet a l4proto ipversion = some d2 ∧
      ∀ i, d2.subscribers i =
        if i = 0 then deleteIfDone (decrement (d.subscribers 0) a) a else d.subscribers i := by
  refine ⟨_, by simp [Dialer.UnregisterAliveDialerSet, mustGetCollection]; rfl, ?_⟩
  intro i
  unfold Dialer.subscribers
  rw [setCollection_collections]
  by_cases hi : i = 0 <;> simp [hi]

theorem stored_counts_at_least_one (name tcpRaw udpRaw : String) (interval : Duration)
    (cs : List RegCall) (hvalid : ∀ c ∈ cs, c.Valid) :
    ∃ d, (NewDialer name tcpRaw udpRaw interval).calls cs = some d ∧
      (∀ i a n, (d.subscribers i).lookup a = some n → 1 ≤ n) ∧
      (∀ a l4proto ipversion, ValidClass l4proto ipversion →
        ∃ d2, d.RegisterAliveDialerSet a l4proto ipversion = some d2 ∧
          ∀ i b, b ∈ d.subscribers i → b ∈ d2.subscribers i) := by
  obtain ⟨d, hd, hpos⟩ :=
    countsPositive_calls (NewDialer_countsPositive name tcpRaw udpRaw interval) hvalid
  refine ⟨d, hd, fun i a n h => hpos i a n h, ?_⟩
  intro a l4proto ipversion hv
  obtain ⟨k, hk⟩ := mustGetCollection_of_valid hv
  have hstep : ∃ d2, d.RegisterAliveDialerSet a l4proto ipversion = some d2 := by
    simp [Dialer.RegisterAliveDialerSet, hk]
  obtain ⟨d2, hd2⟩ := hstep
  exact ⟨d2, hd2, fun i b hb => register_keeps_members hd2 i b hb⟩

/-- C9: on a fresh dialer, registering handle 7 once for UDP/6 and unregistering it once
for UDP/6 leaves handle 7 in the UDP/6 map with count 1, although the decrement of that
registration brings its count to zero; and registering handle 7 for TCP/4 and then
unregistering it for UDP/6 removes the TCP/4 entry, whose class was never unregistered.
The entry `UnregisterAliveDialerSet` decrements and removes is the TCP/4 one whatever
class the call names. -/
theorem unregister_udp6_keeps_entry :
    ((NewDialer "node" "http://example.test/" "example.test:53" 30).calls
        [RegCall.register 7 L4ProtoStr.UDP IpVersionStr.v6,
          RegCall.unregister 7 L4ProtoStr.UDP IpVersionStr.v6]).map
        (fun d => (d.subscribers 3).lookup 7) = some (some 1) ∧
    mustGetCollection L4ProtoStr.UDP IpVersionStr.v6 = some 3 ∧
    ((NewDialer "node" "http://example.test/" "example.test:53" 30).calls
        [RegCall.register 7 L4ProtoStr.TCP IpVersionStr.v4,
          RegCall.unregister 7 L4ProtoStr.UDP IpVersionStr.v6]).map
        (fun d => (d.subscribers 0).lookup 7) = some none ∧
    mustGetCollection L4ProtoStr.TCP IpVersionStr.v4 = some 0 := by
  decide

/-- C1: on a fresh dialer, registering handle 7 twice for UDP/4 and unregistering it once
for UDP/4 leaves the count 2 in the UDP/4 map (not 1), and a second unregister for UDP/4
leaves handle 7 in the UDP/4 map with count 2: `UnregisterAliveDialerSet` works on the
TCP/4 map whatever class it is given. -/
theorem unregister_udp4_leaves_registration :
    ((NewDialer "node" "http://example.test/" "example.test:53" 30).calls
        [RegCall.register 7 L4ProtoStr.UDP IpVersionStr.v4,
          RegCall.register 7 L4ProtoStr.UDP IpVersionStr.v4,
          RegCall.unregister 7 L4ProtoStr.UDP IpVersionStr.v4]).map
        (fun d => (d.subscribers 2).lookup 7) = some (some 2) ∧
    ((NewDialer "node" "http://example.test/" "example.test:53" 30).calls
        [RegCall.register 7 L4ProtoStr.UDP IpVersionStr.v4,
          RegCall.register 7 L4ProtoStr.UDP IpVersionStr.v4,
          RegCall.unregister 7 L4ProtoStr.UDP IpVersionStr.v4,
          RegCall.unregister 7 L4ProtoStr.UDP IpVersionStr.v4]).map
        (fun d => (d.subscribers 2).lookup 7) = some (some 2) ∧
    mustGetCollection L4ProtoStr.UDP IpVersionStr.v4 = some 2 := by
  decide

/-! ## The HTTP probe -/

theorem hasPrefix_iff (s pre : String) :
    HasPrefix s pre = true ↔ ∃ rest, s = pre ++ rest := by
  unfold HasPrefix
  rw [List.isPrefixOf_iff_prefix]
  constructor
  · rintro ⟨t, ht⟩
    exact ⟨String.mk t, String.ext (by simp [String.data_append, ht])⟩
  · rintro ⟨rest, rfl⟩
    exact ⟨rest.data, by simp [String.data_append]⟩

theorem trimPrefix_append (pre rest : String) : TrimPrefix (pre ++ rest) pre = rest := by
  have h : HasPrefix (pre ++ rest) pre = true := (hasPrefix_iff _ _).mpr ⟨rest, rfl⟩
  unfold TrimPrefix
  rw [if_pos h]
  exact String.ext (by simp [String.data_append])

theorem HttpCheck_of_response (env : Env) (ctx : Context) (u : URL) (ip : Addr)
    (req : Request) (resp : Response)
    (hreq : env.NewRequestWithContext ctx u.text = .ok req)
    (hdo : env.Do ip u.port req = .ok resp) :
    HttpCheck env ctx u ip =
      some (if HasPrefix (Base req.url.Path) "generate_" then
          decide (Itoa resp.StatusCode = TrimPrefix (Base req.url.Path) "generate_")
        else decide (200 ≤ resp.StatusCode ∧ resp.StatusCode < 400), none) := by
  by_cases hp : HasPrefix (Base req.url.Path) "generate_" = true <;>
    simp [HttpCheck, hreq, hdo, hp]

/-- C2: when the request is built and the client returns a response, `HttpCheck` returns
normally with a nil error and a verdict fixed by the request path and the status code: if
the last path element is `generate_` followed by a text, the verdict is ok exactly when
the decimal text of the status code is that text; if the last path element does not start
with `generate_`, the verdict is ok exactly when 200 <= status < 400. For the path
`/generate_204` status 204 is ok and status 200 is not; for the path `/` the verdict is ok
exactly for a status in [200, 400), so 404 is not ok. Every other call that builds a
request with the same path and receives the same status code returns the same pair. -/
theorem HttpCheck_verdict (env : Env) (ctx : Context) (u : URL) (ip : Addr)
    (req : Request) (resp : Response)
    (hreq : env.NewRequestWithContext ctx u.text = .ok req)
    (hdo : env.Do ip u.port req = .ok resp) :
    ∃ ok, HttpCheck env ctx u ip = some (ok, none) ∧
      (∀ code, Base req.url.Path = "generate_" ++ code →
        (ok = true ↔ Itoa resp.StatusCode = code)) ∧
      ((¬ ∃ code, Base req.url.Path = "generate_" ++ code) →
        (ok = true ↔ 200 ≤ resp.StatusCode ∧ resp.StatusCode < 400)) ∧
      (req.url.Path = "/generate_204" → resp.StatusCode = 204 → ok = true) ∧
      (req.url.Path = "/generate_204" → resp.StatusCode = 200 → ok = false) ∧
      (req.url.Path = "/" → (ok = true ↔ 200 ≤ resp.StatusCode ∧ resp.StatusCode < 400)) ∧
      (req.url.Path = "/" → resp.StatusCode = 404 → ok = false) ∧
      (∀ (env2 : Env) (ctx2 : Context) (u2 : URL) (ip2 : Addr) (req2 : Request)
          (resp2 : Response),
        env2.NewRequestWithContext ctx2 u2.text = .ok req2 →
        env2.Do ip2 u2.port req2 = .ok resp2 →
        req2.url.Path = req.url.Path → resp2.StatusCode = resp.StatusCode →
        HttpCheck env2 ctx2 u2 ip2 = some (ok, none)) := by
  have hpure : ∀ (env2 : Env) (ctx2 : Context) (u2 : URL) (ip2 : Addr) (req2 : Request)
      (resp2 : Response),
      env2.NewRequestWithContext ctx2 u2.text = .ok req2 →
      env2.Do ip2 u2.port req2 = .ok resp2 →
      req2.url.Path = req.url.Path → resp2.StatusCode = resp.StatusCode →
      HttpCheck env2 ctx2 u2 ip2 = HttpCheck env ctx u ip := by
    intro env2 ctx2 u2 ip2 req2 resp2 hreq2 hdo2 hpath hstatus
    rw [HttpCheck_of_response env2 ctx2 u2 ip2 req2 resp2 hreq2 hdo2,
      HttpCheck_of_response env ctx u ip req resp hreq hdo, hpath, hstatus]
  by_cases hp : HasPrefix (Base req.url.Path) "generate_" = true
  · have hres : HttpCheck env ctx u ip = some
        (decide (Itoa resp.StatusCode = TrimPrefix (Base req.url.Path) "generate_"), none) := by
      simp [HttpCheck, hreq, hdo, hp]
    refine ⟨decide (Itoa resp.StatusCode = TrimPrefix (Base req.url.Path) "generate_"),
      hres, ?_, ?_, ?_, ?_, ?_, ?_, ?_⟩
    rotate_right
    · intro env2 ctx2 u2 ip2 req2 resp2 h1 h2 h3 h4
      rw [hpure env2 ctx2 u2 ip2 req2 resp2 h1 h2 h3 h4, hres]
    · intro code hcode
      rw [hcode, trimPrefix_append]
      simp
    · intro hno
      exact absurd ((hasPrefix_iff _ _).mp hp) hno
    · intro hpath hs
      rw [hpath, hs]
      decide
    · intro hpath hs
      rw [hpath, hs]
      decide
    · intro hpath
      rw [hpath] at hp
      exact absurd hp (by decide)
    · intro hpath
      rw [hpath] at hp
      exact absurd hp (by decide)
  · have hres : HttpCheck env ctx u ip = some
        (decide (200 ≤ resp.StatusCode ∧ resp.StatusCode < 400), none) := by
      simp [HttpCheck, hreq, hdo, hp]
    refine ⟨decide (200 ≤ resp.StatusCode ∧ resp.StatusCode < 400),
      hres, ?_, ?_, ?_, ?_, ?_, ?_, ?_⟩
    rotate_right
    · intro env2 ctx2 u2 ip2 req2 resp2 h1 h2 h3 h4
      rw [hpure env2 ctx2 u2 ip2 req2 resp2 h1 h2 h3 h4, hres]
    · intro code hcode
      exact absurd ((hasPrefix_iff _ _).mpr ⟨code, hcode⟩) hp
    · intro _
      simp
    · intro hpath
      rw [hpath] at hp
      exact absurd (by decide) hp
    · intro hpath
      rw [hpath] at hp
      exact absurd (by decide) hp
    · intro _
      simp
    · intro _ hs
      rw [hs]
      decide

theorem HttpCheck_verdict_witness :
    ∃ ok, HttpCheck (sampleEnv "/generate_204" (.ok sampleIp46) (.ok { StatusCode := 204 })
          (.ok []) 5) { timeout := tenSeconds } (sampleURL "/generate_204") "192.0.2.1"
        = some (ok, none) ∧
      (∀ code, Base "/generate_204" = "generate_" ++ code →
        (ok = true ↔ Itoa 204 = code)) ∧
      ((¬ ∃ code, Base "/generate_204" = "generate_" ++ code) →
        (ok = true ↔ (200 : Int) ≤ 204 ∧ (204 : Int) < 400)) ∧
      ("/generate_204" = "/generate_204" → (204 : Int) = 204 → ok = true) ∧
      ("/generate_204" = "/generate_204" → (204 : Int) = 200 → ok = false) ∧
      ("/generate_204" = "/" → (ok = true ↔ (200 : Int) ≤ 204 ∧ (204 : Int) < 400)) ∧
      ("/generate_204" = "/" → (204 : Int) = 404 → ok = false) ∧
      (∀ (env2 : Env) (ctx2 : Context) (u2 : URL) (ip2 : Addr) (req2 : Request)
          (resp2 : Response),
        env2.NewRequestWithContext ctx2 u2.text = .ok req2 →
        env2.Do ip2 u2.port req2 = .ok resp2 →
        req2.url.Path = "/generate_204" → resp2.StatusCode = 204 →
        HttpCheck env2 ctx2 u2 ip2 = some (ok, none)) :=
  HttpCheck_verdict
    (sampleEnv "/generate_204" (.ok sampleIp46) (.ok { StatusCode := 204 }) (.ok []) 5)
    { timeout := tenSeconds } (sampleURL "/generate_204") "192.0.2.1"
    { url := { text := "http://example.test/generate_204", hostname := "example.test",
               port := "80", Path := "/generate_204" } }
    { StatusCode := 204 } rfl rfl

theorem HttpCheck_error_of_netError (env : Env) (ctx : Context) (u : URL) (ip : Addr)
    (req : Request) (err : GoError) (isTimeout : Bool)
    (hreq : env.NewRequestWithContext ctx u.text = .ok req)
    (hdo : env.Do ip u.port req = .error err) (hnet : err.netErr = some isTimeout) :
    HttpCheck env ctx u ip =
      some (false, some (if isTimeout then Errorf "timeout" else err)) := by
  cases isTimeout <;> simp [HttpCheck, hreq, hdo, hnet]

/-- C10: for every error the HTTP client returns for the request, under the contract of
`http.Client.Do` that its errors satisfy `net.Error`: `HttpCheck` returns normally with
`ok = false`; when the error is a timeout the returned error is the one with the text
`timeout`; when it is not a timeout the returned error is the client's error
unchanged. -/
theorem HttpCheck_client_error (env : Env) (ctx : Context) (u : URL) (ip : Addr)
    (req : Request) (err : GoError) (hcontract : env.DoReturnsUrlError)
    (hreq : env.NewRequestWithContext ctx u.text = .ok req)
    (hdo : env.Do ip u.port req = .error err) :
    ∃ e, HttpCheck env ctx u ip = some (false, some e) ∧
      (err.netErr = some true → e = Errorf "timeout" ∧ e.msg = "timeout") ∧
      (err.netErr ≠ some true → e = err) := by
  obtain ⟨isTimeout, hnet⟩ := hcontract ip u.port req err hdo
  refine ⟨if isTimeout then Errorf "timeout" else err,
    HttpCheck_error_of_netError env ctx u ip req err isTimeout hreq hdo hnet, ?_, ?_⟩
  · intro h
    rw [hnet] at h
    cases isTimeout
    · exact absurd h (by decide)
    · exact ⟨rfl, rfl⟩
  · intro h
    rw [hnet] at h
    cases isTimeout
    · rfl
    · exact absurd rfl h

theorem HttpCheck_client_error_witness :
    (∃ e, HttpCheck (sampleEnv "/" (.ok sampleIp46)
          (.error { msg := "context deadline exceeded", netErr := some true }) (.ok []) 5)
          { timeout := tenSeconds } (sampleURL "/") "192.0.2.1" = some (false, some e) ∧
        ((some true : Option Bool) = some true → e = Errorf "timeout" ∧ e.msg = "timeout") ∧
        ((some true : Option Bool) ≠ some true →
          e = { msg := "context deadline exceeded", netErr := some true })) ∧
    (∃ e, HttpCheck (sampleEnv "/" (.ok sampleIp46)
          (.error { msg := "connection refused", netErr := some false }) (.ok []) 5)
          { timeout := tenSeconds } (sampleURL "/") "192.0.2.1" = some (false, some e) ∧
        ((some false : Option Bool) = some true → e = Errorf "timeout" ∧ e.msg = "timeout") ∧
        ((some false : Option Bool) ≠ some true →
          e = { msg := "connection refused", netErr := some false })) :=
  ⟨HttpCheck_client_error
      (sampleEnv "/" (.ok sampleIp46)
        (.error { msg := "context deadline exceeded", netErr := some true }) (.ok []) 5)
      { timeout := tenSeconds } (sampleURL "/") "192.0.2.1"
      { url := { text := "http://example.test/", hostname := "example.test", port := "80",
                 Path := "/" } }
      { msg := "context deadline exceeded", netErr := some true }
      (fun _ _ _ err h => ⟨true, by cases h; rfl⟩) rfl rfl,
    HttpCheck_client_error
      (sampleEnv "/" (.ok sampleIp46)
        (.error { msg := "connection refused", netErr := some false }) (.ok []) 5)
      { timeout := tenSeconds } (sampleURL "/") "192.0.2.1"
      { url := { text := "http://example.test/", hostname := "example.test", port := "80",
                 Path := "/" } }
      { msg := "connection refused", netErr := some false }
      (fun _ _ _ err h => ⟨false, by cases h; rfl⟩) rfl rfl⟩

/-! ## Check -/

theorem Check_eq (d : Dialer) (env : Env) (timeout : Duration) (opts : CheckOption)
    (i : Fin 4) (ok : Bool) (err : Option GoError) (raws : CheckOptionRaws)
    (hi : mustGetCollection opts.L4proto opts.IpVersion = some i)
    (hf : opts.CheckFunc env { timeout := timeout } d.raws = some ((ok, err), raws)) :
    ∃ r, d.Check env timeout opts = some r ∧
      r.ok = ok ∧
      r.err = (if ok && err.isNone then err else err.map normalizeErr) ∧
      (∀ j, j ≠ i → r.dialer.collections j = d.collections j) ∧
      (r.dialer.collections i).AliveDialerSetSet = (d.collections i).AliveDialerSetSet ∧
      (r.dialer.collections i).Alive = (ok && err.isNone) ∧
      (r.dialer.collections i).Latencies10 =
        (d.collections i).Latencies10.AppendLatency
          (if ok && err.isNone then env.elapsed else timeout) ∧
      r.notified = (d.collections i).AliveDialerSetSet.keys.map
        (fun a => { set := a, dialer := d.name, alive := (ok && err.isNone) }) := by
  unfold Dialer.Check
  rw [hi]
  simp only [hf]
  refine ⟨_, rfl, rfl, rfl, ?_, ?_, ?_, ?_, ?_⟩
  · intro j hj
    simp only [setCollection_collections, if_neg hj]
  · simp only [setCollection_collections, if_true]
    by_cases h : (ok && err.isNone) = true <;> simp [h]
  · simp only [setCollection_collections, if_true]
    by_cases h : (ok && err.isNone) = true <;> simp [h]
  · simp only [setCollection_collections, if_true]
    by_cases h : (ok && err.isNone) = true <;> simp [h]
  · by_cases h : (ok && err.isNone) = true <;> simp [h]

/-- C3: for every dialer state, timeout and check option of a valid class whose probe
returns `(ok, err)`, `Check` returns and the `Alive` flag of that class is then true when
`ok` is true and `err` is nil, and false otherwise, whatever the state was before. -/
theorem Check_sets_alive (d : Dialer) (env : Env) (timeout : Duration) (opts : CheckOption)
    (ok : Bool) (err : Option GoError) (raws : CheckOptionRaws)
    (hvalid : ValidClass opts.L4proto opts.IpVersion)
    (hf : opts.CheckFunc env { timeout := timeout } d.raws = some ((ok, err), raws)) :
    ∃ r, d.Check env timeout opts = some r ∧
      ((ok = true ∧ err = none) →
        r.dialer.MustGetAlive opts.L4proto opts.IpVersion = some true) ∧
      (¬ (ok = true ∧ err = none) →
        r.dialer.MustGetAlive opts.L4proto opts.IpVersion = some false) := by
  obtain ⟨i, hi⟩ := mustGetCollection_of_valid hvalid
  obtain ⟨r, hr, -, -, -, -, halive, -, -⟩ := Check_eq d env timeout opts i ok err raws hi hf
  refine ⟨r, hr, ?_, ?_⟩
  · rintro ⟨hok, herr⟩
    simp [Dialer.MustGetAlive, hi, halive, hok, herr]
  · intro hnot
    simp only [Dialer.MustGetAlive, hi, halive, Option.map_some', Option.some.injEq]
    cases ok <;> cases err <;> simp at hnot ⊢

theorem Check_sets_alive_witness :
    ValidClass (constCheckOption L4ProtoStr.UDP IpVersionStr.v6 true none).L4proto
        (constCheckOption L4ProtoStr.UDP IpVersionStr.v6 true none).IpVersion ∧
    ∃ r, sampleDialer.Check (sampleEnv "/" (.ok sampleIp46) (.ok { StatusCode := 200 })
          (.ok []) 5) 1000 (constCheckOption L4ProtoStr.UDP IpVersionStr.v6 true none)
        = some r ∧
      ((true = true ∧ (none : Option GoError) = none) →
        r.dialer.MustGetAlive L4ProtoStr.UDP IpVersionStr.v6 = some true) ∧
      (¬ (true = true ∧ (none : Option GoError) = none) →
        r.dialer.MustGetAlive L4ProtoStr.UDP IpVersionStr.v6 = some false) :=
  ⟨by decide,
    Check_sets_alive sampleDialer
      (sampleEnv "/" (.ok sampleIp46) (.ok { StatusCode := 200 }) (.ok []) 5) 1000
      (constCheckOption L4ProtoStr.UDP IpVersionStr.v6 true none) true none sampleDialer.raws
      (by decide) rfl⟩

theorem appendLatency_samples (ln : LatenciesN) (l : Duration) :
    ∃ kept, kept <:+ ln.samples ∧ ln.samples.length ≤ kept.length + 1 ∧
      (ln.AppendLatency l).samples = kept ++ [l] := by
  unfold LatenciesN.AppendLatency
  by_cases h : ln.N ≤ ln.samples.length
  · refine ⟨ln.samples.drop 1, List.drop_suffix 1 _, ?_, by simp [h]⟩
    simp only [List.length_drop]
    omega
  · exact ⟨ln.samples, List.suffix_refl _, by omega, by simp [h]⟩

theorem tcpCheckFunc_of_parse_error (env : Env) (ctx : Context) (raws : CheckOptionRaws)
    (e : GoError) (hopt : raws.Tcp.opt = none)
    (hparse : ParseTcpCheckOption env { timeout := tenSeconds } raws.Tcp.Raw = .error e) :
    tcp4CheckFunc env ctx raws =
        some ((false, some (ErrorfWrap "failed to parse tcp_check_url" e)), raws) ∧
      tcp6CheckFunc env ctx raws =
        some ((false, some (ErrorfWrap "failed to parse tcp_check_url" e)), raws) := by
  constructor <;>
    simp [tcp4CheckFunc, tcp6CheckFunc, TcpCheckOptionRaw.Option, hopt, hparse]

theorem udpCheckFunc_of_parse_error (env : Env) (ctx : Context) (raws : CheckOptionRaws)
    (e : GoError) (hopt : raws.Udp.opt = none)
    (hparse : ParseUdpCheckOption env { timeout := tenSeconds } raws.Udp.Raw = .error e) :
    udp4CheckFunc env ctx raws =
        some ((false, some (ErrorfWrap "failed to parse tcp_check_url" e)), raws) ∧
      udp6CheckFunc env ctx raws =
        some ((false, some (ErrorfWrap "failed to parse tcp_check_url" e)), raws) := by
  constructor <;>
    simp [udp4CheckFunc, udp6CheckFunc, UdpCheckOptionRaw.Option, hopt, hparse]

theorem Check_of_failed_probe (d : Dialer) (env : Env) (timeout : Duration)
    (opts : CheckOption) (ok : Bool) (err : Option GoError) (raws : CheckOptionRaws)
    (hvalid : ValidClass opts.L4proto opts.IpVersion)
    (hf : opts.CheckFunc env { timeout := timeout } d.raws = some ((ok, err), raws))
    (hfail : ¬ (ok = true ∧ err = none)) :
    ∃ i r, mustGetCollection opts.L4proto opts.IpVersion = some i ∧
      d.Check env timeout opts = some r ∧
      r.ok = ok ∧ r.err = err.map normalizeErr ∧
      (r.dialer.collections i).Alive = false ∧
      (r.dialer.collections i).Latencies10 =
        (d.collections i).Latencies10.AppendLatency timeout ∧
      (∀ j, j ≠ i → (r.dialer.collections j).Latencies10 = (d.collections j).Latencies10) := by
  obtain ⟨i, hi⟩ := mustGetCollection_of_valid hvalid
  obtain ⟨r, hr, hok, herr, hother, -, halive, hlat, -⟩ :=
    Check_eq d env timeout opts i ok err raws hi hf
  have hcond : (ok && err.isNone) = false := by
    cases ok <;> cases err <;> simp at hfail ⊢
  rw [hcond] at halive hlat herr
  refine ⟨i, r, hi, hr, hok, by simpa using herr, halive, by simpa using hlat, ?_⟩
  intro j hj
  rw [hother j hj]

/-- C4: when the probe of a `Check` on a valid class fails (it returns an error, or
`ok = false`), `Check` returns, the latency window of that class is the old window with
the one sample `timeout` appended (the elapsed time does not enter), the windows of the
other classes are unchanged; and when the check target of one of the scheduler's four
options is unresolved and its resolution fails, the probe fails and the same holds. -/
theorem Check_failure_appends_timeout (d : Dialer) (env : Env) (timeout : Duration)
    (opts : CheckOption) (ok : Bool) (err : Option GoError) (raws : CheckOptionRaws)
    (hvalid : ValidClass opts.L4proto opts.IpVersion)
    (hf : opts.CheckFunc env { timeout := timeout } d.raws = some ((ok, err), raws))
    (hfail : ¬ (ok = true ∧ err = none)) :
    (∃ i r, mustGetCollection opts.L4proto opts.IpVersion = some i ∧
      d.Check env timeout opts = some r ∧
      (r.dialer.collections i).Latencies10 =
        (d.collections i).Latencies10.AppendLatency timeout ∧
      (∃ kept, kept <:+ (d.collections i).Latencies10.samples ∧
        (d.collections i).Latencies10.samples.length ≤ kept.length + 1 ∧
        (r.dialer.collections i).Latencies10.samples = kept ++ [timeout]) ∧
      (∀ j, j ≠ i → (r.dialer.collections j).Latencies10 = (d.collections j).Latencies10)) ∧
    (∀ (d2 : Dialer) (env2 : Env) (timeout2 : Duration) (opts2 : CheckOption) (e : GoError),
      (((opts2 = tcp4CheckOpt ∨ opts2 = tcp6CheckOpt) ∧ d2.raws.Tcp.opt = none ∧
          ParseTcpCheckOption env2 { timeout := tenSeconds } d2.raws.Tcp.Raw = .error e) ∨
        ((opts2 = udp4CheckOpt ∨ opts2 = udp6CheckOpt) ∧ d2.raws.Udp.opt = none ∧
          ParseUdpCheckOption env2 { timeout := tenSeconds } d2.raws.Udp.Raw = .error e)) →
      ∃ i r, mustGetCollection opts2.L4proto opts2.IpVersion = some i ∧
        d2.Check env2 timeout2 opts2 = some r ∧
        r.ok = false ∧
        r.err = some (normalizeErr (ErrorfWrap "failed to parse tcp_check_url" e)) ∧
        (r.dialer.collections i).Alive = false ∧
        (r.dialer.collections i).Latencies10 =
          (d2.collections i).Latencies10.AppendLatency timeout2) := by
  constructor
  · obtain ⟨i, r, hi, hr, -, -, -, hlat, hother⟩ :=
      Check_of_failed_probe d env timeout opts ok err raws hvalid hf hfail
    refine ⟨i, r, hi, hr, hlat, ?_, hother⟩
    rw [hlat]
    exact appendLatency_samples _ _
  · intro d2 env2 timeout2 opts2 e h
    have key : ValidClass opts2.L4proto opts2.IpVersion ∧
        opts2.CheckFunc env2 { timeout := timeout2 } d2.raws =
          some ((false, some (ErrorfWrap "failed to parse tcp_check_url" e)), d2.raws) := by
      rcases h with ⟨hopts, hnone, hparse⟩ | ⟨hopts, hnone, hparse⟩
      · have hp := tcpCheckFunc_of_parse_error env2 { timeout := timeout2 } d2.raws e
          hnone hparse
        rcases hopts with rfl | rfl
        · exact ⟨by decide, hp.1⟩
        · exact ⟨by decide, hp.2⟩
      · have hp := udpCheckFunc_of_parse_error env2 { timeout := timeout2 } d2.raws e
          hnone hparse
        rcases hopts with rfl | rfl
        · exact ⟨by decide, hp.1⟩
        · exact ⟨by decide, hp.2⟩
    obtain ⟨i, r, hi, hr, hok, herr, halive, hlat, -⟩ :=
      Check_of_failed_probe d2 env2 timeout2 opts2 false _ d2.raws key.1 key.2 (by simp)
    exact ⟨i, r, hi, hr, hok, by simpa using herr, halive, hlat⟩

theorem Check_failure_appends_timeout_witness :
    ∃ i r, mustGetCollection udp4CheckOpt.L4proto udp4CheckOpt.IpVersion = some i ∧
      sampleDialer.Check (sampleEnv "/" (.error { msg := "no such host", netErr := none })
          (.ok { StatusCode := 200 }) (.ok []) 5) 1000 udp4CheckOpt = some r ∧
      (r.dialer.collections i).Latencies10 =
        (sampleDialer.collections i).Latencies10.AppendLatency 1000 ∧
      (∃ kept, kept <:+ (sampleDialer.collections i).Latencies10.samples ∧
        (sampleDialer.collections i).Latencies10.samples.length ≤ kept.length + 1 ∧
        (r.dialer.collections i).Latencies10.samples = kept ++ [1000]) ∧
      (∀ j, j ≠ i →
        (r.dialer.collections j).Latencies10 = (sampleDialer.collections j).Latencies10) :=
  (Check_failure_appends_timeout sampleDialer
    (sampleEnv "/" (.error { msg := "no such host", netErr := none })
      (.ok { StatusCode := 200 }) (.ok []) 5) 1000 udp4CheckOpt false
    (some (ErrorfWrap "failed to parse tcp_check_url" { msg := "no such host", netErr := none }))
    sampleDialer.raws (by decide) rfl (by simp)).1

theorem countP_set_keys (m : AliveDialerSetSet) (name : String) (alive : Bool)
    (a : AliveDialerSetPtr) :
    List.countP (fun n : Notification => decide (n.set = a))
        (m.keys.map (fun b => { set := b, dialer := name, alive := alive })) =
      if a ∈ m then 1 else 0 := by
  rw [List.countP_map]
  have hc : List.countP ((fun n : Notification => decide (n.set = a)) ∘
      (fun b => ({ set := b, dialer := name, alive := alive } : Notification))) m.keys =
      List.count a m.keys := by
    unfold List.count
    apply List.countP_congr
    intro b _
    simp [Function.comp]
  rw [hc, List.count_eq_of_nodup m.keys_nodup]
  by_cases h : a ∈ m
  · rw [if_pos h, if_pos (AList.mem_keys.mp h)]
  · rw [if_neg h, if_neg (fun hk => h (AList.mem_keys.mpr hk))]

/-- C6: for every `Check` on a valid class whose probe returns, `Check` returns, it has
called `NotifyLatencyChange` exactly once for every handle in the subscriber map of that
class and for no other handle, every such call carries the checked dialer and the new
`Alive` value of the class, and all four subscriber maps are as before. -/
theorem Check_notifies_subscribers (d : Dialer) (env : Env) (timeout : Duration)
    (opts : CheckOption) (ok : Bool) (err : Option GoError) (raws : CheckOptionRaws)
    (hvalid : ValidClass opts.L4proto opts.IpVersion)
    (hf : opts.CheckFunc env { timeout := timeout } d.raws = some ((ok, err), raws)) :
    ∃ i r, mustGetCollection opts.L4proto opts.IpVersion = some i ∧
      d.Check env timeout opts = some r ∧
      (∀ a, a ∈ d.subscribers i →
        List.countP (fun n : Notification => decide (n.set = a)) r.notified = 1) ∧
      (∀ a, a ∉ d.subscribers i →
        List.countP (fun n : Notification => decide (n.set = a)) r.notified = 0) ∧
      (∀ n ∈ r.notified, n.dialer = d.name ∧ n.alive = (r.dialer.collections i).Alive) ∧
      (∀ j, r.dialer.subscribers j = d.subscribers j) := by
  obtain ⟨i, hi⟩ := mustGetCollection_of_valid hvalid
  obtain ⟨r, hr, -, -, hother, hsub, halive, -, hnote⟩ :=
    Check_eq d env timeout opts i ok err raws hi hf
  refine ⟨i, r, hi, hr, ?_, ?_, ?_, ?_⟩
  · intro a ha
    rw [hnote, countP_set_keys]
    exact if_pos ha
  · intro a ha
    rw [hnote, countP_set_keys]
    exact if_neg ha
  · intro n hn
    rw [hnote] at hn
    obtain ⟨b, -, rfl⟩ := List.mem_map.mp hn
    exact ⟨rfl, halive.symm⟩
  · intro j
    unfold Dialer.subscribers
    by_cases hj : j = i
    · subst hj; exact hsub
    · rw [hother j hj]

theorem Check_notifies_subscribers_witness :
    ∃ i r, mustGetCollection L4ProtoStr.TCP IpVersionStr.v6 = some i ∧
      sampleDialer.Check (sampleEnv "/" (.ok sampleIp46) (.ok { StatusCode := 200 })
          (.ok []) 5) 1000 (constCheckOption L4ProtoStr.TCP IpVersionStr.v6 true none)
        = some r ∧
      (∀ a, a ∈ sampleDialer.subscribers i →
        List.countP (fun n : Notification => decide (n.set = a)) r.notified = 1) ∧
      (∀ a, a ∉ sampleDialer.subscribers i →
        List.countP (fun n : Notification => decide (n.set = a)) r.notified = 0) ∧
      (∀ n ∈ r.notified,
        n.dialer = sampleDialer.name ∧ n.alive = (r.dialer.collections i).Alive) ∧
      (∀ j, r.dialer.subscribers j = sampleDialer.subscribers j) :=
  Check_notifies_subscribers sampleDialer
    (sampleEnv "/" (.ok sampleIp46) (.ok { StatusCode := 200 }) (.ok []) 5) 1000
    (constCheckOption L4ProtoStr.TCP IpVersionStr.v6 true none) true none sampleDialer.raws
    (by decide) rfl

/-! ## The memoised check targets -/

theorem tcpCalls_of_cached {o : TcpCheckOption} :
    ∀ (envs : List Env) (c : TcpCheckOptionRaw), c.opt = some o →
      ∀ r ∈ c.Calls envs, r.result = .ok o ∧ r.parsed = false ∧ r.cache = c := by
  intro envs
  induction envs with
  | nil => intro c _ r hr; simp [TcpCheckOptionRaw.Calls] at hr
  | cons env envs ih =>
    intro c hc r hr
    have h0 : c.Option env = { result := .ok o, cache := c, parsed := false } := by
      simp [TcpCheckOptionRaw.Option, hc]
    simp only [TcpCheckOptionRaw.Calls, h0, List.mem_cons] at hr
    rcases hr with rfl | hr
    · exact ⟨rfl, rfl, rfl⟩
    · exact ih c hc r hr

theorem tcpOption_ok_cache (c : TcpCheckOptionRaw) (env : Env) (o : TcpCheckOption)
    (h : (c.Option env).result = .ok o) : (c.Option env).cache.opt = some o := by
  unfold TcpCheckOptionRaw.Option at h ⊢
  cases hc : c.opt with
  | some o2 => simp [hc] at h ⊢; rw [← h]
  | none =>
    cases hp : ParseTcpCheckOption env { timeout := tenSeconds } c.Raw with
    | error e => simp [hc, hp] at h
    | ok o2 => simp [hc, hp] at h ⊢; rw [← h]

theorem tcpCalls_after_success {o : TcpCheckOption} :
    ∀ (envs : List Env) (c : TcpCheckOptionRaw) (i j : Nat)
      (ri rj : OptionCall TcpCheckOption TcpCheckOptionRaw),
      i < j → (c.Calls envs)[i]? = some ri → (c.Calls envs)[j]? = some rj →
      ri.result = .ok o → rj.result = .ok o ∧ rj.parsed = false := by
  intro envs
  induction envs with
  | nil => intro c i j ri rj _ hi; simp [TcpCheckOptionRaw.Calls] at hi
  | cons env envs ih =>
    intro c i j ri rj hij hi hj hres
    cases j with
    | zero => omega
    | succ j =>
      simp only [TcpCheckOptionRaw.Calls, List.getElem?_cons_succ] at hj
      cases i with
      | zero =>
        simp only [TcpCheckOptionRaw.Calls, List.getElem?_cons_zero, Option.some.injEq] at hi
        subst hi
        have hcache := tcpOption_ok_cache c env o hres
        have := tcpCalls_of_cached envs _ hcache rj (List.getElem?_mem hj)
        exact ⟨this.1, this.2.1⟩
      | succ i =>
        simp only [TcpCheckOptionRaw.Calls, List.getElem?_cons_succ] at hi
        exact ih _ i j ri rj (by omega) hi hj hres

theorem tcpCalls_length (envs : List Env) :
    ∀ c : TcpCheckOptionRaw, (c.Calls envs).length = envs.length := by
  induction envs with
  | nil => intro c; rfl
  | cons env envs ih => intro c; simp [TcpCheckOptionRaw.Calls, ih]

theorem udpCalls_of_cached {o : UdpCheckOption} :
    ∀ (envs : List Env) (c : UdpCheckOptionRaw), c.opt = some o →
      ∀ r ∈ c.Calls envs, r.result = .ok o ∧ r.parsed = false ∧ r.cache = c := by
  intro envs
  induction envs with
  | nil => intro c _ r hr; simp [UdpCheckOptionRaw.Calls] at hr
  | cons env envs ih =>
    intro c hc r hr
    have h0 : c.Option env = { result := .ok o, cache := c, parsed := false } := by
      simp [UdpCheckOptionRaw.Option, hc]
    simp only [UdpCheckOptionRaw.Calls, h0, List.mem_cons] at hr
    rcases hr with rfl | hr
    · exact ⟨rfl, rfl, rfl⟩
    · exact ih c hc r hr

theorem udpOption_ok_cache (c : UdpCheckOptionRaw) (env : Env) (o : UdpCheckOption)
    (h : (c.Option env).result = .ok o) : (c.Option env).cache.opt = some o := by
  unfold UdpCheckOptionRaw.Option at h ⊢
  cases hc : c.opt with
  | some o2 => simp [hc] at h ⊢; rw [← h]
  | none =>
    cases hp : ParseUdpCheckOption env { timeout := tenSeconds } c.Raw with
    | error e => simp [hc, hp] at h
    | ok o2 => simp [hc, hp] at h ⊢; rw [← h]

theorem udpCalls_after_success {o : UdpCheckOption} :
    ∀ (envs : List Env) (c : UdpCheckOptionRaw) (i j : Nat)
      (ri rj : OptionCall UdpCheckOption UdpCheckOptionRaw),
      i < j → (c.Calls envs)[i]? = some ri → (c.Calls envs)[j]? = some rj →
      ri.result = .ok o → rj.result = .ok o ∧ rj.parsed = false := by
  intro envs
  induction envs with
  | nil => intro c i j ri rj _ hi; simp [UdpCheckOptionRaw.Calls] at hi
  | cons env envs ih =>
    intro c i j ri rj hij hi hj hres
    cases j with
    | zero => omega
    | succ j =>
      simp only [UdpCheckOptionRaw.Calls, List.getElem?_cons_succ] at hj
      cases i with
      | zero =>
        simp only [UdpCheckOptionRaw.Calls, List.getElem?_cons_zero, Option.some.injEq] at hi
        subst hi
        have hcache := udpOption_ok_cache c env o hres
        have := udpCalls_of_cached envs _ hcache rj (List.getElem?_mem hj)
        exact ⟨this.1, this.2.1⟩
      | succ i =>
        simp only [UdpCheckOptionRaw.Calls, List.getElem?_cons_succ] at hi
        exact ih _ i j ri rj (by omega) hi hj hres

theorem udpCalls_length (envs : List Env) :
    ∀ c : UdpCheckOptionRaw, (c.Calls envs).length = envs.length := by
  induction envs with
  | nil => intro c; rfl
  | cons env envs ih => intro c; simp [UdpCheckOptionRaw.Calls, ih]

/-- C7: for `TcpCheckOptionRaw.Option` and `UdpCheckOptionRaw.Option`: with an empty
cache and a failing resolution the call returns the wrapped error, the cache stays empty
and the next call reaches the resolver again; with an empty cache and a successful
resolution the option is returned and stored; every sequence of calls returns call by
call, and after a call that returned an option every later call returns that same option
without reaching the resolver. -/
theorem Option_resolves_at_most_once (ct : TcpCheckOptionRaw) (cu : UdpCheckOptionRaw)
    (envs : List Env) :
    ((∀ env e, ct.opt = none →
        ParseTcpCheckOption env { timeout := tenSeconds } ct.Raw = .error e →
        (ct.Option env).result = .error (ErrorfWrap "failed to parse tcp_check_url" e) ∧
        (ct.Option env).cache.opt = none ∧ (ct.Option env).parsed = true ∧
        ∀ env2, ((ct.Option env).cache.Option env2).parsed = true) ∧
      (∀ env o, ct.opt = none →
        ParseTcpCheckOption env { timeout := tenSeconds } ct.Raw = .ok o →
        (ct.Option env).result = .ok o ∧ (ct.Option env).cache.opt = some o ∧
        (ct.Option env).parsed = true) ∧
      (ct.Calls envs).length = envs.length ∧
      (∀ (i j : Nat) (ri rj : OptionCall TcpCheckOption TcpCheckOptionRaw)
          (o : TcpCheckOption),
        i < j → (ct.Calls envs)[i]? = some ri → (ct.Calls envs)[j]? = some rj →
        ri.result = .ok o → rj.result = .ok o ∧ rj.parsed = false)) ∧
    ((∀ env e, cu.opt = none →
        ParseUdpCheckOption env { timeout := tenSeconds } cu.Raw = .error e →
        (cu.Option env).result = .error (ErrorfWrap "failed to parse tcp_check_url" e) ∧
        (cu.Option env).cache.opt = none ∧ (cu.Option env).parsed = true ∧
        ∀ env2, ((cu.Option env).cache.Option env2).parsed = true) ∧
      (∀ env o, cu.opt = none →
        ParseUdpCheckOption env { timeout := tenSeconds } cu.Raw = .ok o →
        (cu.Option env).result = .ok o ∧ (cu.Option env).cache.opt = some o ∧
        (cu.Option env).parsed = true) ∧
      (cu.Calls envs).length = envs.length ∧
      (∀ (i j : Nat) (ri rj : OptionCall UdpCheckOption UdpCheckOptionRaw)
          (o : UdpCheckOption),
        i < j → (cu.Calls envs)[i]? = some ri → (cu.Calls envs)[j]? = some rj →
        ri.result = .ok o → rj.result = .ok o ∧ rj.parsed = false)) := by
  refine ⟨⟨?_, ?_, tcpCalls_length envs ct, ?_⟩, ⟨?_, ?_, udpCalls_length envs cu, ?_⟩⟩
  · intro env e hc hp
    have h0 : ct.Option env =
        { result := .error (ErrorfWrap "failed to parse tcp_check_url" e)
          cache := ct, parsed := true } := by
      simp [TcpCheckOptionRaw.Option, hc, hp]
    rw [h0]
    refine ⟨rfl, hc, rfl, ?_⟩
    intro env2
    simp only [TcpCheckOptionRaw.Option, hc]
    cases ParseTcpCheckOption env2 { timeout := tenSeconds } ct.Raw <;> rfl
  · intro env o hc hp
    simp [TcpCheckOptionRaw.Option, hc, hp]
  · intro i j ri rj o hij hi hj hres
    exact tcpCalls_after_success envs ct i j ri rj hij hi hj hres
  · intro env e hc hp
    have h0 : cu.Option env =
        { result := .error (ErrorfWrap "failed to parse tcp_check_url" e)
          cache := cu, parsed := true } := by
      simp [UdpCheckOptionRaw.Option, hc, hp]
    rw [h0]
    refine ⟨rfl, hc, rfl, ?_⟩
    intro env2
    simp only [UdpCheckOptionRaw.Option, hc]
    cases ParseUdpCheckOption env2 { timeout := tenSeconds } cu.Raw <;> rfl
  · intro env o hc hp
    simp [UdpCheckOptionRaw.Option, hc, hp]
  · intro i j ri rj o hij hi hj hres
    exact udpCalls_after_success envs cu i j ri rj hij hi hj hres

theorem Option_resolves_at_most_once_witness :
    ∃ ri rj,
      (TcpCheckOptionRaw.Calls { opt := none, Raw := "http://example.test/" }
        [sampleEnv "/" (.error { msg := "no such host", netErr := none })
            (.ok { StatusCode := 200 }) (.ok []) 5,
          sampleEnv "/" (.ok sampleIp46) (.ok { StatusCode := 200 }) (.ok []) 5,
          sampleEnv "/" (.error { msg := "no such host", netErr := none })
            (.ok { StatusCode := 200 }) (.ok []) 5])[1]? = some ri ∧
      (TcpCheckOptionRaw.Calls { opt := none, Raw := "http://example.test/" }
        [sampleEnv "/" (.error { msg := "no such host", netErr := none })
            (.ok { StatusCode := 200 }) (.ok []) 5,
          sampleEnv "/" (.ok sampleIp46) (.ok { StatusCode := 200 }) (.ok []) 5,
          sampleEnv "/" (.error { msg := "no such host", netErr := none })
            (.ok { StatusCode := 200 }) (.ok []) 5])[2]? = some rj ∧
      ri.parsed = true ∧
      rj.result = .ok { Url := { text := "http://example.test/", hostname := "example.test",
                                 port := "80", Path := "/" },
                        ip46 := sampleIp46 } ∧
      rj.parsed = false :=
  ⟨_, _, rfl, rfl, rfl,
    (Option_resolves_at_most_once { opt := none, Raw := "http://example.test/" }
      { opt := none, Raw := "example.test:53" }
      [sampleEnv "/" (.error { msg := "no such host", netErr := none })
          (.ok { StatusCode := 200 }) (.ok []) 5,
        sampleEnv "/" (.ok sampleIp46) (.ok { StatusCode := 200 }) (.ok []) 5,
        sampleEnv "/" (.error { msg := "no such host", netErr := none })
          (.ok { StatusCode := 200 }) (.ok []) 5]).1.2.2.2 1 2 _ _ _ (by decide) rfl rfl rfl⟩

/-! ## The trigger queue -/

/-- C8: for a trigger queue of capacity 1 holding at most one trigger: `NotifyCheck`
leaves the queue unchanged when the context is cancelled; otherwise it puts its trigger
into an empty queue and leaves a full queue unchanged. With a trigger pending, two
consecutive calls leave exactly that trigger; from any state two consecutive calls leave
at most one pending trigger. -/
theorem NotifyCheck_coalesces (d : Dialer) (now1 now2 : Time)
    (hcap : d.checkCh.cap = 1) (hlen : d.checkCh.buf.length ≤ d.checkCh.cap) :
    (d.ctxDone = true → (d.NotifyCheck now1).checkCh = d.checkCh) ∧
    (d.ctxDone = false → d.checkCh.buf = [] →
      (d.NotifyCheck now1).checkCh.buf = [now1]) ∧
    (d.ctxDone = false → d.checkCh.buf.length = d.checkCh.cap →
      (d.NotifyCheck now1).checkCh = d.checkCh) ∧
    (d.pending = 1 → ((d.NotifyCheck now1).NotifyCheck now2).checkCh = d.checkCh) ∧
    ((d.NotifyCheck now1).NotifyCheck now2).pending ≤ 1 ∧
    ((d.NotifyCheck now1).checkCh.cap = 1 ∧ (d.NotifyCheck now1).ctxDone = d.ctxDone) := by
  obtain ⟨name, cols, raws, interval, enabled, ⟨cap, buf⟩, done⟩ := d
  simp only at hcap hlen
  subst hcap
  have hbuf : buf = [] ∨ ∃ t, buf = [t] := by
    match buf, hlen with
    | [], _ => exact Or.inl rfl
    | [t], _ => exact Or.inr ⟨t, rfl⟩
    | _ :: _ :: _, h => simp at h
  cases done <;> rcases hbuf with rfl | ⟨t, rfl⟩ <;>
    simp [Dialer.NotifyCheck, Chan.trySend, Dialer.pending]

theorem NotifyCheck_coalesces_witness :
    (((sampleDialer.NotifyCheck 100).NotifyCheck 101).NotifyCheck 102).checkCh
        = (sampleDialer.NotifyCheck 100).checkCh ∧
      (sampleDialer.NotifyCheck 100).checkCh.buf = [100] :=
  ⟨(NotifyCheck_coalesces (sampleDialer.NotifyCheck 100) 101 102 (by decide)
      (by decide)).2.2.2.1 (by decide),
    (NotifyCheck_coalesces sampleDialer 100 101 (by decide) (by decide)).2.1 (by decide)
      (by decide)⟩

/-! ## The scheduler -/

theorem len_pos_iff (m : AliveDialerSetSet) : 0 < m.len ↔ ∃ a, a ∈ m := by
  unfold AliveDialerSetSet.len
  rw [List.length_pos_iff_exists_mem]
  exact ⟨fun ⟨a, ha⟩ => ⟨a, AList.mem_keys.mpr ha⟩, fun ⟨a, ha⟩ => ⟨a, AList.mem_keys.mp ha⟩⟩

theorem aliveBackgroundCycle_eq (d : Dialer) :
    aliveBackgroundCycle d = some
      ((if 0 < (d.subscribers 0).len then [{ timeout := tenSeconds, opts := tcp4CheckOpt }]
          else []) ++
        (if 0 < (d.subscribers 1).len then [{ timeout := tenSeconds, opts := tcp6CheckOpt }]
          else []) ++
        (if 0 < (d.subscribers 2).len then [{ timeout := tenSeconds, opts := udp4CheckOpt }]
          else []) ++
        (if 0 < (d.subscribers 3).len then [{ timeout := tenSeconds, opts := udp6CheckOpt }]
          else [])) := by
  unfold aliveBackgroundCycle launchIfSubscribed Dialer.subscribers
  simp only [tcp4CheckOpt, tcp6CheckOpt, udp4CheckOpt, udp6CheckOpt, mustGetCollection]
  by_cases h0 : 0 < (d.collections 0).AliveDialerSetSet.len <;>
    by_cases h1 : 0 < (d.collections 1).AliveDialerSetSet.len <;>
    by_cases h2 : 0 < (d.collections 2).AliveDialerSetSet.len <;>
    by_cases h3 : 0 < (d.collections 3).AliveDialerSetSet.len <;>
    simp [h0, h1, h2, h3]

/-- C5: when a trigger is consumed, the scheduler starts one check for each class whose
subscriber map holds at least one handle and none for a class whose map is empty, every
started check being for one of the four classes; on activation it starts exactly one
check for each of the four classes, four in all, whatever the subscriber maps hold. -/
theorem scheduler_launches (d : Dialer) :
    (∃ ls, aliveBackgroundCycle d = some ls ∧
      (∀ t rest, d.checkCh.buf = t :: rest →
        ∃ d2, aliveBackgroundReceive d = some (d2, some ls) ∧ d2.checkCh.buf = rest ∧
          d2.collections = d.collections) ∧
      (∀ l4proto ipversion i, mustGetCollection l4proto ipversion = some i →
        ((∃ a, a ∈ d.subscribers i) →
          List.countP (fun l : Launch =>
            decide (l.opts.L4proto = l4proto ∧ l.opts.IpVersion = ipversion)) ls = 1) ∧
        ((∀ a, a ∉ d.subscribers i) →
          List.countP (fun l : Launch =>
            decide (l.opts.L4proto = l4proto ∧ l.opts.IpVersion = ipversion)) ls = 0)) ∧
      (∀ l ∈ ls, ValidClass l.opts.L4proto l.opts.IpVersion)) ∧
    (d.CheckEnabled = false →
      d.ActivateCheck.2 = aliveBackgroundInitial ∧ d.ActivateCheck.1.CheckEnabled = true ∧
      (∀ i, d.ActivateCheck.1.collections i = d.collections i)) ∧
    (∀ l4proto ipversion, ValidClass l4proto ipversion →
      List.countP (fun l : Launch =>
        decide (l.opts.L4proto = l4proto ∧ l.opts.IpVersion = ipversion))
        aliveBackgroundInitial = 1) ∧
    aliveBackgroundInitial.length = 4 := by
  refine ⟨⟨_, aliveBackgroundCycle_eq d, ?_, ?_, ?_⟩, ?_, ?_, rfl⟩
  · intro t rest hbuf
    refine ⟨{ d with checkCh := { d.checkCh with buf := rest } }, ?_, rfl, rfl⟩
    simp only [aliveBackgroundReceive, Chan.recv, hbuf]
    rw [aliveBackgroundCycle_eq]
    rfl
  · intro l4proto ipversion i hi
    have hpos : (∃ a, a ∈ d.subscribers i) ↔ 0 < (d.subscribers i).len :=
      (len_pos_iff _).symm
    have hneg : (∀ a, a ∉ d.subscribers i) ↔ ¬ 0 < (d.subscribers i).len := by
      rw [len_pos_iff]; exact not_exists.symm
    rw [hpos, hneg]
    cases l4proto <;> cases ipversion <;> simp [mustGetCollection] at hi <;> subst hi <;>
      by_cases c0 : 0 < (d.subscribers 0).len <;>
      by_cases c1 : 0 < (d.subscribers 1).len <;>
      by_cases c2 : 0 < (d.subscribers 2).len <;>
      by_cases c3 : 0 < (d.subscribers 3).len <;>
      simp [c0, c1, c2, c3, tcp4CheckOpt, tcp6CheckOpt, udp4CheckOpt, udp6CheckOpt,
        List.countP_cons]
  · intro l hl
    simp only [List.mem_append] at hl
    rcases hl with ((hl | hl) | hl) | hl <;> split at hl <;>
      simp only [List.mem_singleton, List.not_mem_nil] at hl <;> subst hl <;> decide
  · intro h
    simp [Dialer.ActivateCheck, h]
  · intro l4proto ipversion hv
    rcases hv with ⟨rfl | rfl, rfl | rfl⟩ <;> decide

theorem scheduler_launches_witness :
    (∃ ls, aliveBackgroundCycle sampleDialer = some ls ∧
      List.countP (fun l : Launch =>
        decide (l.opts.L4proto = L4ProtoStr.UDP ∧ l.opts.IpVersion = IpVersionStr.v6)) ls = 1) ∧
    (∃ ls, aliveBackgroundCycle (NewDialer "node" "http://example.test/" "example.test:53" 30)
        = some ls ∧
      List.countP (fun l : Launch =>
        decide (l.opts.L4proto = L4ProtoStr.TCP ∧ l.opts.IpVersion = IpVersionStr.v4)) ls = 0) :=
  ⟨(scheduler_launches sampleDialer).1.elim fun ls h =>
      ⟨ls, h.1, (h.2.2.1 L4ProtoStr.UDP IpVersionStr.v6 3 rfl).1
        ⟨7, AList.mem_keys.mpr (by decide)⟩⟩,
    (scheduler_launches (NewDialer "node" "http://example.test/" "example.test:53" 30)).1.elim
      fun ls h =>
        ⟨ls, h.1, (h.2.2.1 L4ProtoStr.TCP IpVersionStr.v4 0 rfl).2
          (fun a => AList.not_mem_empty a)⟩⟩

/-! ## Registration on the TCP/4 class -/

theorem register_subscribers (d : Dialer) (a : AliveDialerSetPtr) (l4proto : L4ProtoStr)
    (ipversion : IpVersionStr) (i : Fin 4)
    (hi : mustGetCollection l4proto ipversion = some i) :
    ∃ d2, d.RegisterAliveDialerSet a l4proto ipversion = some d2 ∧
      ∀ j, d2.subscribers j =
        if j = i then (d.subscribers i).insert a (AliveDialerSetSet.get (d.subscribers i) a + 1)
        else d.subscribers j := by
  refine ⟨_, by simp [Dialer.RegisterAliveDialerSet, hi]; rfl, ?_⟩
  intro j
  unfold Dialer.subscribers
  rw [setCollection_collections]
  by_cases hj : j = i <;> simp [hj]

theorem register_twice_unregister_twice_tcp4 (d : Dialer) (a : AliveDialerSetPtr)
    (ha : a ∉ d.subscribers 0) :
    ∃ d3, d.calls [RegCall.register a L4ProtoStr.TCP IpVersionStr.v4,
        RegCall.register a L4ProtoStr.TCP IpVersionStr.v4,
        RegCall.unregister a L4ProtoStr.TCP IpVersionStr.v4] = some d3 ∧
      (d3.subscribers 0).lookup a = some 1 ∧
      ∃ d4, d3.UnregisterAliveDialerSet a L4ProtoStr.TCP IpVersionStr.v4 = some d4 ∧
        a ∉ d4.subscribers 0 := by
  obtain ⟨d1, hd1, hs1⟩ := register_subscribers d a L4ProtoStr.TCP IpVersionStr.v4 0 rfl
  obtain ⟨d2, hd2, hs2⟩ := register_subscribers d1 a L4ProtoStr.TCP IpVersionStr.v4 0 rfl
  obtain ⟨d3, hd3, hs3⟩ := unregister_subscribers d2 a L4ProtoStr.TCP IpVersionStr.v4
  obtain ⟨d4, hd4, hs4⟩ := unregister_subscribers d3 a L4ProtoStr.TCP IpVersionStr.v4
  have h0 : AliveDialerSetSet.get (d.subscribers 0) a = 0 := by
    simp [AliveDialerSetSet.get, AList.lookup_eq_none.mpr ha]
  have h1 : AliveDialerSetSet.get (d1.subscribers 0) a = 1 := by
    rw [hs1 0, if_pos rfl, get_insert_self, h0]; rfl
  have h2 : AliveDialerSetSet.get (d2.subscribers 0) a = 2 := by
    rw [hs2 0, if_pos rfl, get_insert_self, h1]; rfl
  have l3 : (d3.subscribers 0).lookup a = some 1 := by
    rw [hs3 0, if_pos rfl, lookup_deleteIfDone_decrement, if_pos rfl, h2]; rfl
  have h3 : AliveDialerSetSet.get (d3.subscribers 0) a = 1 := by
    simp [AliveDialerSetSet.get, l3]
  refine ⟨d3, by simp [Dialer.calls, Dialer.call, hd1, hd2, hd3], l3, d4, hd4, ?_⟩
  rw [← AList.lookup_eq_none, hs4 0, if_pos rfl, lookup_deleteIfDone_decrement, if_pos rfl, h3]
  rfl

end Dae
